import Mathlib

/-!
Verification of the satpipe scene-resolution and grid-reconciliation
pipeline: a shallow embedding of `satpipe/ingest/msi.py`,
`satpipe/preprocess/normalize.py`, `satpipe/preprocess/align.py` and
`satpipe/utils/io.py`, followed by theorems about the embedded code.

Modelling conventions:
* pixel values and statistics are exact rationals (the Python code works in
  machine floats; the float32 cast at the end of the normaliser is dropped);
* external library routines that the repository only calls
  (rasterio `reproject`, the numpy generator, hashlib `sha256`) are passed in
  as explicit function / state parameters, so every repository-level decision
  (which resampling mode, which destination shape, what gets hashed, in what
  order) stays in the embedded definitions;
* fallible operations (missing reference band, missing asset, empty catalog
  search) return `Option` / `Except` where Python raises.
-/

namespace Satpipe

/-- Affine pixel-to-world transform, the six coefficients of a
`rasterio.Affine` (a b c / d e f). -/
structure Affine where
  a : ℚ
  b : ℚ
  c : ℚ
  d : ℚ
  e : ℚ
  f : ℚ
  deriving DecidableEq, Repr

/-- Geospatial grid descriptor: affine transform, width, height and
coordinate reference system, as in the spec's Grid data model and in
`rasterio` profiles used by `msi.py` / `align.py`. -/
structure Grid where
  transform : Affine
  width : Nat
  height : Nat
  crs : String
  deriving DecidableEq, Repr

/-- A 2-D pixel array, row major (list of rows). -/
abbrev Pixels := List (List ℚ)

/-- Build an `h × w` pixel array from a value generator, the model of
`np.empty((h, w))` filled in by an external kernel. -/
def mkPixels (h w : Nat) (g : Nat → Nat → ℚ) : Pixels :=
  (List.range h).map fun i => (List.range w).map fun j => g i j

/-- One band as read from a raster file by `rasterio.open`: the pixel array
plus the file's georeferencing (`src.transform`, `src.crs`); `src.width` and
`src.height` are the array dimensions. -/
structure SourceRaster where
  arr : Pixels
  transform : Affine
  crs : String
  deriving DecidableEq, Repr

/-- `src.height`: number of rows of the native pixel array. -/
def SourceRaster.height (s : SourceRaster) : Nat := s.arr.length

/-- `src.width`: number of columns of the native pixel array. -/
def SourceRaster.width (s : SourceRaster) : Nat := (s.arr.headD []).length

/-- The Grid a source raster is defined on (profile transform/size/crs). -/
def gridOf (s : SourceRaster) : Grid :=
  { transform := s.transform, width := s.width, height := s.height, crs := s.crs }

/-- Resampling mode passed to rasterio `reproject`
(`Resampling.nearest` at ingest, `Resampling.bilinear` at alignment). -/
inductive Resampling where
  | nearest
  | bilinear
  deriving DecidableEq, Repr

/-- The external warp kernel (rasterio `reproject`), modelled as the value it
writes at destination pixel (i, j) given the resampling mode, the source
array, source transform/crs and destination transform/crs.  The repository
chooses the mode and the destination shape; the kernel is the collaborator. -/
abbrev ReprojectKernel :=
  Resampling → Pixels → Affine → String → Affine → String → Nat → Nat → ℚ

/-- One `xarray.DataArray` inside a dataset: pixel array, the Grid its
coordinates are defined on, its attribute record, and its per-variable
encoding record.  A freshly constructed DataArray has empty encoding; a
variable of a dataset opened with `xr.open_zarr` carries zarr storage keys
(chunks, compressor, ...) but no `"source"` entry — `"source"` is never in
per-variable encoding for zarr-opened stores. -/
structure DataArray where
  arr : Pixels
  grid : Grid
  attrs : List (String × String)
  encoding : List (String × String) := []
  deriving DecidableEq, Repr

/-- An `xarray.Dataset`: ordered mapping band name → DataArray plus a
dataset-level attribute record. -/
structure Dataset where
  bands : List (String × DataArray)
  attrs : List (String × String)
  deriving DecidableEq, Repr

/-- Python dict assignment `d[k] = v` on an attribute record: the new pair
shadows any previous binding of `k`. -/
def dictSet (m : List (String × String)) (k v : String) : List (String × String) :=
  (k, v) :: m.filter fun p => decide (p.1 ≠ k)

/-! ### utils/io.py -/

/-- Rendering of `str(dataset.dims)`: the dataset's dimension sizes, taken
from the shared y/x coordinates (the first band's grid). -/
def Dataset.dims (ds : Dataset) : List (String × Nat) :=
  match ds.bands with
  | [] => []
  | (_, da) :: _ => [("y", da.grid.height), ("x", da.grid.width)]

/-- String form of the dimension-size mapping used in `compute_scene_hash`. -/
def dimsStr (ds : Dataset) : String :=
  String.intercalate ", " (ds.dims.map fun p => p.1 ++ ": " ++ toString p.2)

/-- `compute_scene_hash`: digest of the `scene_id` attribute (empty string
when absent) concatenated with the string form of the dataset dims.  The
external `hashlib.sha256(...).hexdigest()` is the `digest` parameter. -/
def compute_scene_hash (digest : String → String) (ds : Dataset) : String :=
  digest (((ds.attrs.lookup "scene_id").getD "") ++ dimsStr ds)

/-- `write_zarr`: stores the integrity digest in the `"hash"` attribute and
persists the dataset (persistence itself is external; the stored dataset is
returned). -/
def write_zarr (digest : String → String) (ds : Dataset) : Dataset :=
  { ds with attrs := dictSet ds.attrs "hash" (compute_scene_hash digest ds) }

/-! ### preprocess/normalize.py -/

/-- Normalisation mode. -/
inductive Mode where
  | zscore
  | minmax
  deriving DecidableEq, Repr

/-- The `Normaliser` configuration: per-band statistics, mode, optional clip
bound. -/
structure Normaliser where
  stats : List (String × (ℚ × ℚ))
  mode : Mode
  clip_sigma : Option ℚ
  deriving DecidableEq, Repr

/-- Elementwise clip to `[lo, hi]` (numpy / xarray `clip`). -/
def clipQ (x lo hi : ℚ) : ℚ := min (max x lo) hi

/-- `Normaliser._transform_band` on one band's pixel array: looks up the
band's `(stat0, stat1)`, applies `(value - stat0) / stat1` elementwise, then
clips — to `[-c, c]` in z-score mode when a clip bound `c` is set, and
unconditionally to `[0, 1]` in min-max mode.  `none` models the `KeyError`
(`StatisticsMismatch`) when the band has no statistics entry. -/
def _transform_band (nz : Normaliser) (arr : Pixels) (band : String) : Option Pixels :=
  match nz.stats.lookup band with
  | none => none
  | some (mean, spread) =>
    match nz.mode with
    | Mode.zscore =>
      let out := arr.map fun row => row.map fun v => (v - mean) / spread
      match nz.clip_sigma with
      | some c => some (out.map fun row => row.map fun v => clipQ v (-c) c)
      | none => some out
    | Mode.minmax =>
      some (arr.map fun row => row.map fun v => clipQ ((v - mean) / spread) 0 1)

/-- Explicit pseudo-random generator state, the model of the seeded numpy
generator `np.random.default_rng(rng_seed)` (an external collaborator: only
its being an explicit deterministic state machine matters to the code). -/
structure RngState where
  state : Nat
  deriving DecidableEq, Repr

/-- One step of the generator: a 64-bit linear-congruential update standing
in for the external PRNG algorithm; overflow is explicit mod 2^64. -/
def rngNext (s : RngState) : Nat × RngState :=
  let n := (6364136223846793005 * s.state + 1442695040888963407) % (2 ^ 64)
  (n, { state := n })

/-- Seeding, `np.random.default_rng(seed)`. -/
def seedRng (seed : Nat) : RngState := { state := seed }

/-- Sampling without replacement (`rng.choice(flat, size=n, replace=False)`):
repeatedly draw an index into the remaining pool and remove the drawn pixel.
Deterministic in the pool and the generator state. -/
def sampleWithoutReplacement : Nat → List ℚ → RngState → (List ℚ × RngState)
  | 0, _, st => ([], st)
  | n + 1, pool, st =>
    if pool.length = 0 then ([], st)
    else
      let r := rngNext st
      let i := r.1 % pool.length
      let rest := sampleWithoutReplacement n (pool.eraseIdx i) r.2
      (pool.getD i 0 :: rest.1, rest.2)

/-- Sample mean (`sample.mean()`). -/
def sampleMean (l : List ℚ) : ℚ := l.sum / (l.length : ℚ)

/-- Sample variance; numpy's `sample.std()` is its square root, taken by the
external `sqrtF` parameter of `compute_stats`. -/
def sampleVar (l : List ℚ) : ℚ :=
  (l.map fun v => (v - sampleMean l) ^ 2).sum / (l.length : ℚ)

/-- `compute_stats`: per band in dataset order, flatten the pixel array,
draw `max 1 (int (sample_frac * size))` pixels without replacement from the
generator seeded once with `rng_seed` (state threaded across bands), and
record `(mean, std)`.  `sqrtF` is the external floating-point square root
used by `sample.std()`. -/
def compute_stats (sqrtF : ℚ → ℚ) (ds : Dataset) (sample_frac : ℚ) (rng_seed : Nat) :
    List (String × (ℚ × ℚ)) :=
  (ds.bands.foldl
    (fun acc p =>
      let flat := p.2.arr.flatten
      let n := max 1 (Int.toNat ⌊sample_frac * (flat.length : ℚ)⌋)
      let s := sampleWithoutReplacement n flat acc.2
      (acc.1 ++ [(p.1, (sampleMean s.1, sqrtF (sampleVar s.1)))], s.2))
    ([], seedRng rng_seed)).1

/-! ### ingest/msi.py -/

/-- Error taxonomy of the ingest path: `NotFound` is the `ValueError` raised
when both catalog searches are empty; `MissingAsset` is the `KeyError`
raised with the logical band name and the item's available asset keys. -/
inductive IngestError where
  | notFound (tile : String) (date : String)
  | missingAsset (logical : String) (available : List String)
  deriving DecidableEq, Repr

/-- A matched STAC catalog item: acquisition timestamp and the mapping of
asset alias → fetchable reference. -/
structure CatalogItem where
  ts : Nat
  assets : List (String × String)
  deriving DecidableEq, Repr

/-- The logical band → ordered alias list table `BANDS` of `msi.py`. -/
def BANDS : List (String × List String) :=
  [("B02", ["B02", "B02_JP2", "blue", "blue-jp2"]),
   ("B03", ["B03", "B03_JP2", "green", "green-jp2"]),
   ("B04", ["B04", "B04_JP2", "red", "red-jp2"]),
   ("B08", ["B08", "B08_JP2", "nir08", "nir08-jp2", "nir", "nir-jp2"])]

/-- Exact-date STAC search: items whose acquisition timestamp falls in the
target date's 24-hour window `[dayStart, dayEnd]`, capped at one item
(`max_items=1`), in provider order. -/
def searchExact (catalog : List CatalogItem) (dayStart dayEnd : Nat) : List CatalogItem :=
  (catalog.filter fun it => decide (dayStart ≤ it.ts ∧ it.ts ≤ dayEnd)).take 1

/-- Insert into a list sorted by descending timestamp (stable: ties keep
provider order). -/
def insertDesc (it : CatalogItem) : List CatalogItem → List CatalogItem
  | [] => [it]
  | x :: xs => if x.ts < it.ts then it :: x :: xs else x :: insertDesc it xs

/-- Sort by descending timestamp, the `sortby properties.datetime desc` of
the fallback search. -/
def sortDesc : List CatalogItem → List CatalogItem
  | [] => []
  | x :: xs => insertDesc x (sortDesc xs)

/-- Fallback STAC search: items with timestamp at most the end of the target
date (`../dateT23:59:59Z`), sorted descending by timestamp, capped at one. -/
def searchFallback (catalog : List CatalogItem) (dayEnd : Nat) : List CatalogItem :=
  (sortDesc (catalog.filter fun it => decide (it.ts ≤ dayEnd))).take 1

/-- The catalog-resolution step of `MSIIngestor.download`: the exact-date
search, the fallback search only when the first is empty (`list(...) or
list(...)`), `items[0]` from whichever succeeded, and the `ValueError`
(`NotFound`) when both are empty. -/
def resolveScene (catalog : List CatalogItem) (tile date : String)
    (dayStart dayEnd : Nat) : Except IngestError CatalogItem :=
  match searchExact catalog dayStart dayEnd with
  | it :: _ => Except.ok it
  | [] =>
    match searchFallback catalog dayEnd with
    | it :: _ => Except.ok it
    | [] => Except.error (IngestError.notFound tile date)

/-- Alias scan of `MSIIngestor.download`:
`next((item.assets[a] for a in aliases if a in item.assets), None)` — the
asset of the first alias present in the item's asset map. -/
def resolveAsset (item : CatalogItem) : List String → Option String
  | [] => none
  | key :: rest =>
    match item.assets.lookup key with
    | some asset => some asset
    | none => resolveAsset item rest

/-- Band-to-asset resolution for one logical band: the first present alias's
asset, or `MissingAsset` with the logical name and the item's available
asset keys (`list(item.assets)`). -/
def bandAsset (item : CatalogItem) (logical : String) (aliases : List String) :
    Except IngestError String :=
  match resolveAsset item aliases with
  | some asset => Except.ok asset
  | none => Except.error (IngestError.missingAsset logical (item.assets.map Prod.fst))

/-- `_resample`: warp one source band onto the reference grid; the
destination array is `np.empty((ref.height, ref.width))` filled by the
external `reproject` kernel called with `Resampling.nearest`. -/
def _resample (repro : ReprojectKernel) (src : SourceRaster) (ref : Grid) : Pixels :=
  mkPixels ref.height ref.width fun i j =>
    repro Resampling.nearest src.arr src.transform src.crs ref.transform ref.crs i j

/-- The per-band branch of `MSIIngestor.to_zarr`: reuse the native array
when `(src.width, src.height)` equals the reference `(width, height)`,
otherwise `_resample` onto the reference grid. -/
def reconcileBand (repro : ReprojectKernel) (ref : SourceRaster) (src : SourceRaster) : Pixels :=
  if (src.width, src.height) = (ref.width, ref.height) then src.arr
  else _resample repro src (gridOf ref)

/-- `MSIIngestor.to_zarr`: B02 is the reference grid; its coordinates
(derived from the reference transform) become every output band's grid; the
remaining bands are reconciled in file order; the dataset gets the
`scene_id` attribute and is persisted through `write_zarr`.  `none` models
the `KeyError` when no B02 file is present. -/
def to_zarr (digest : String → String) (repro : ReprojectKernel) (scene_id : String)
    (files : List (String × SourceRaster)) : Option Dataset :=
  match files.lookup "B02" with
  | none => none
  | some ref =>
    let refGrid := gridOf ref
    let bands :=
      ("B02", ({ arr := ref.arr, grid := refGrid, attrs := [] } : DataArray)) ::
      ((files.filter fun p => decide (p.1 ≠ "B02")).map fun p =>
        (p.1, ({ arr := reconcileBand repro ref p.2, grid := refGrid, attrs := [] } : DataArray)))
    some (write_zarr digest { bands := bands, attrs := [("scene_id", scene_id)] })

/-! ### preprocess/align.py -/

/-- Rendering of an affine transform for the attribute record written by
`_reproject_band` (attribute values are strings in the model). -/
def affineStr (t : Affine) : String :=
  String.intercalate ", "
    ([t.a, t.b, t.c, t.d, t.e, t.f].map fun q => toString q)

/-- `_reproject_band`: warp one band onto the target grid; the destination
array is `np.empty((tgt.height, tgt.width))` filled by the external
`reproject` kernel called with `Resampling.bilinear`; the band's attributes
are the source attributes overridden with the target transform and crs. -/
def _reproject_band (repro : ReprojectKernel) (src : DataArray) (tgt : Grid) : DataArray :=
  { arr := mkPixels tgt.height tgt.width fun i j =>
      repro Resampling.bilinear src.arr src.grid.transform src.grid.crs
        tgt.transform tgt.crs i j,
    grid := tgt,
    attrs := dictSet (dictSet src.attrs "transform" (affineStr tgt.transform)) "crs" tgt.crs }

/-- Errors raised on the alignment path: `keyError` for a failed mapping
lookup (`ds[reference_band]`, `ref_da.encoding["source"]`), and the
`TypeError` that `xr.merge` raises when handed a dict as its `objects`
argument. -/
inductive AlignError where
  | keyError (key : String)
  | typeErrorMergeDict
  deriving DecidableEq, Repr

/-- `_target_grid`: read (transform, width, height, crs) from a reference
band's file path; the rasterio file read is the external `gridRead`
parameter. -/
def _target_grid (gridRead : String → Grid) (reference_path : String) : Grid :=
  gridRead reference_path

/-- The `xr.merge` call of `regrid_to_10m`, which passes a dict
comprehension as merge's `objects` argument: merge iterates `objects`, and
iterating a dict yields its string keys, which fail merge's per-element
`isinstance(obj, (DataArray, Dataset, dict))` check — merge raises
`TypeError` before combining anything, so no merged dataset and no
dataset-level attributes are ever produced from this call. -/
def mergeDictBands (_bands : List (String × DataArray)) : Except AlignError Dataset :=
  Except.error AlignError.typeErrorMergeDict

/-- `regrid_to_10m` as written in `align.py`: look up the reference band
(`KeyError` if absent), read `ref_da.encoding["source"]` — which raises
`KeyError "source"` for a zarr-opened variable, whose encoding has no such
entry — then, were a source path present, derive the target grid from it,
reproject every band bilinearly and hand the dict comprehension to
`xr.merge`, which raises `TypeError`.  The function can never return a
dataset. -/
def regrid_to_10m (gridRead : String → Grid) (repro : ReprojectKernel)
    (ds : Dataset) (reference_band : String) : Except AlignError Dataset :=
  match ds.bands.lookup reference_band with
  | none => Except.error (AlignError.keyError reference_band)
  | some refDa =>
    match refDa.encoding.lookup "source" with
    | none => Except.error (AlignError.keyError "source")
    | some path =>
      let tgt := _target_grid gridRead path
      mergeDictBands (ds.bands.map fun p => (p.1, _reproject_band repro p.2 tgt))

/-- On every input, `regrid_to_10m` raises before producing a dataset:
either `KeyError` (missing reference band, or the absent per-variable
`encoding["source"]` of zarr-opened data) or the `TypeError` from handing
`xr.merge` a dict. -/
theorem regrid_always_error (gridRead : String → Grid) (repro : ReprojectKernel)
    (ds : Dataset) (b : String) :
    ∃ e, regrid_to_10m gridRead repro ds b = Except.error e := by
  cases h1 : ds.bands.lookup b with
  | none => exact ⟨AlignError.keyError b, by simp [regrid_to_10m, h1]⟩
  | some refDa =>
    cases h2 : refDa.encoding.lookup "source" with
    | none => exact ⟨AlignError.keyError "source", by simp [regrid_to_10m, h1, h2]⟩
    | some path =>
      exact ⟨AlignError.typeErrorMergeDict, by simp [regrid_to_10m, h1, h2, mergeDictBands]⟩

/-! ### Helper lemmas -/

theorem mkPixels_length (h w : Nat) (g : Nat → Nat → ℚ) :
    (mkPixels h w g).length = h := by
  simp [mkPixels]

theorem mkPixels_row_length (h w : Nat) (g : Nat → Nat → ℚ) :
    ∀ row ∈ mkPixels h w g, row.length = w := by
  intro row hrow
  simp only [mkPixels, List.mem_map] at hrow
  obtain ⟨i, _, hrow⟩ := hrow
  simp [← hrow]

theorem clipQ_unit_mem (x : ℚ) : 0 ≤ clipQ x 0 1 ∧ clipQ x 0 1 ≤ 1 := by
  refine ⟨le_min (le_max_right x 0) (by norm_num), min_le_right _ _⟩

theorem write_zarr_bands (digest : String → String) (ds : Dataset) :
    (write_zarr digest ds).bands = ds.bands := rfl

/-! ### Claim C2: z-score normalization -/

/-- C2: for every band array and every band with statistics `(mean, std)`,
z-score normalization with a clip bound `c` set computes
`clip((value - mean) / std, -c, +c)` elementwise. -/
theorem zscore_clip_spec (nz : Normaliser) (arr : Pixels) (band : String)
    (mean std c : ℚ)
    (hmode : nz.mode = Mode.zscore)
    (hclip : nz.clip_sigma = some c)
    (hstats : nz.stats.lookup band = some (mean, std)) :
    _transform_band nz arr band =
      some (arr.map fun row => row.map fun v => clipQ ((v - mean) / std) (-c) c) := by
  simp [_transform_band, hstats, hmode, hclip, List.map_map, Function.comp]

def nzC2 : Normaliser :=
  { stats := [("B02", (500, 120))], mode := Mode.zscore, clip_sigma := some 3 }

/-- C2 witness: with stats `(mean=500, std=120)` and clip 3, input 2000
(raw z-score 12.5) yields exactly 3. -/
theorem zscore_clip_witness :
    _transform_band nzC2 [[2000]] "B02" = some [[3]] := by
  have h := zscore_clip_spec nzC2 [[2000]] "B02" 500 120 3 rfl rfl rfl
  rw [h]
  norm_num [clipQ]

/-! ### Claim C3: min-max normalization -/

/-- C3: for every band array and statistics `(stat0, stat1)`, min-max
normalization computes `(value - stat0) / stat1` elementwise and
unconditionally clips to `[0, 1]`; every output value lies in `[0, 1]`. -/
theorem minmax_clip_spec (nz : Normaliser) (arr : Pixels) (band : String)
    (m r : ℚ)
    (hmode : nz.mode = Mode.minmax)
    (hstats : nz.stats.lookup band = some (m, r)) :
    (_transform_band nz arr band =
      some (arr.map fun row => row.map fun v => clipQ ((v - m) / r) 0 1))
  ∧ (∀ out, _transform_band nz arr band = some out →
      ∀ row ∈ out, ∀ v ∈ row, 0 ≤ v ∧ v ≤ 1) := by
  have heq : _transform_band nz arr band =
      some (arr.map fun row => row.map fun v => clipQ ((v - m) / r) 0 1) := by
    simp [_transform_band, hstats, hmode]
  refine ⟨heq, ?_⟩
  intro out hout row hrow v hv
  rw [heq] at hout
  obtain rfl := Option.some.inj hout
  simp only [List.mem_map] at hrow
  obtain ⟨row0, _, rfl⟩ := hrow
  simp only [List.mem_map] at hv
  obtain ⟨v0, _, rfl⟩ := hv
  exact clipQ_unit_mem _

def nzC3 : Normaliser :=
  { stats := [("B02", (0, 10000))], mode := Mode.minmax, clip_sigma := some 3 }

/-- C3 witness: with stats `(min=0, range=10000)`, input 5000 maps to 1/2,
and the out-of-range input 20000 is clamped to 1. -/
theorem minmax_clip_witness :
    _transform_band nzC3 [[5000, 20000]] "B02" = some [[1/2, 1]] := by
  have h := (minmax_clip_spec nzC3 [[5000, 20000]] "B02" 0 10000 rfl rfl).1
  rw [h]
  norm_num [clipQ]

/-! ### Claim C7: Statistics Sampler determinism -/

/-- C7: the Statistics Sampler is deterministic — two invocations of
`compute_stats` with identical pixel data, sample fraction and seed return
identical per-band (mean, std) mappings. -/
theorem compute_stats_deterministic (sqrtF : ℚ → ℚ) (ds1 ds2 : Dataset)
    (f1 f2 : ℚ) (s1 s2 : Nat)
    (hds : ds1 = ds2) (hf : f1 = f2) (hs : s1 = s2) :
    compute_stats sqrtF ds1 f1 s1 = compute_stats sqrtF ds2 f2 s2 := by
  subst hds
  subst hf
  subst hs
  rfl

def gridEx : Grid :=
  { transform := { a := 10, b := 0, c := 600000, d := 0, e := -10, f := 5300040 },
    width := 2, height := 2, crs := "EPSG:32635" }

def ds7 : Dataset :=
  { bands := [("B02", { arr := [[1, 2], [3, 4]], grid := gridEx, attrs := [] })],
    attrs := [] }

/-- C7 witness: a concrete dataset sampled twice with the same fraction and
(syntactically different renderings of) the same seed gives equal stats. -/
theorem compute_stats_witness :
    compute_stats (fun q => q) ds7 (1 / 50) 42 =
      compute_stats (fun q => q) ds7 (1 / 50) (41 + 1) :=
  compute_stats_deterministic (fun q => q) ds7 ds7 (1 / 50) (1 / 50) 42 (41 + 1)
    rfl rfl (by norm_num)

/-! ### Claim C10: scene hash ignores pixel values -/

/-- C10: the digest stored by `write_zarr` in the `"hash"` attribute is the
digest of the `scene_id` attribute (empty when absent) concatenated with
the string form of the dataset dims; two datasets with the same scene_id
and dims — regardless of pixel values — receive the same digest. -/
theorem scene_hash_spec (digest : String → String) (ds1 ds2 : Dataset)
    (hsid : ds1.attrs.lookup "scene_id" = ds2.attrs.lookup "scene_id")
    (hdims : ds1.dims = ds2.dims) :
    ((write_zarr digest ds1).attrs.lookup "hash" =
      some (digest (((ds1.attrs.lookup "scene_id").getD "") ++ dimsStr ds1)))
  ∧ compute_scene_hash digest ds1 = compute_scene_hash digest ds2 := by
  constructor
  · simp [write_zarr, dictSet, compute_scene_hash]
  · simp [compute_scene_hash, dimsStr, hsid, hdims]

def dsH1 : Dataset :=
  { bands := [("B02", { arr := [[1, 2]], grid := gridEx, attrs := [] })],
    attrs := [("scene_id", "T35NND/2024/02/15")] }

def dsH2 : Dataset :=
  { bands := [("B02", { arr := [[7, 9]], grid := gridEx, attrs := [] })],
    attrs := [("scene_id", "T35NND/2024/02/15")] }

/-- C10 witness: two concrete datasets with equal scene_id and dims but
different pixel arrays hash identically. -/
theorem scene_hash_witness :
    compute_scene_hash (fun s => s) dsH1 = compute_scene_hash (fun s => s) dsH2
  ∧ dsH1 ≠ dsH2 :=
  ⟨(scene_hash_spec (fun s => s) dsH1 dsH2 rfl rfl).2, by decide⟩

/-! ### Claim C1: grid consistency -/

/-- C1: two Grids are equal iff all four fields match exactly; every band of
a dataset produced by `to_zarr` carries the reference band's Grid (even a
band whose native shape equals the reference shape but whose transform or
CRS differs); and the Grid Aligner produces no dataset at all — on every
input `regrid_to_10m` raises before merging — so every dataset produced by
Band Reconciler or Grid Aligner is a `to_zarr` dataset, whose bands all
share the one reference Grid. -/
theorem grid_consistency_spec :
    (∀ g1 g2 : Grid, g1 = g2 ↔
      g1.transform = g2.transform ∧ g1.width = g2.width ∧
      g1.height = g2.height ∧ g1.crs = g2.crs)
  ∧ (∀ (digest : String → String) (repro : ReprojectKernel) (scene : String)
      (files : List (String × SourceRaster)) (ref : SourceRaster) (ds : Dataset),
      files.lookup "B02" = some ref →
      to_zarr digest repro scene files = some ds →
      ∀ p ∈ ds.bands, p.2.grid = gridOf ref)
  ∧ (∀ (gridRead : String → Grid) (repro : ReprojectKernel) (ds : Dataset)
      (refBand : String),
      ∃ e, regrid_to_10m gridRead repro ds refBand = Except.error e) := by
  refine ⟨?_, ?_, ?_⟩
  · intro g1 g2
    cases g1
    cases g2
    simp [Grid.mk.injEq]
  · intro digest repro scene files ref ds h1 h2 p hp
    simp only [to_zarr, h1] at h2
    obtain rfl := Option.some.inj h2
    simp only [write_zarr_bands] at hp
    rcases List.mem_cons.mp hp with rfl | hp
    · rfl
    · obtain ⟨q, _, rfl⟩ := List.mem_map.mp hp
      rfl
  · intro gridRead repro ds refBand
    exact regrid_always_error gridRead repro ds refBand

def aff1 : Affine := { a := 10, b := 0, c := 600000, d := 0, e := -10, f := 5300040 }

def aff2 : Affine := { a := 20, b := 0, c := 600100, d := 0, e := -20, f := 5300140 }

/-- Reference band: 2×2 at the reference georeferencing. -/
def srcB02 : SourceRaster := { arr := [[1, 2], [3, 4]], transform := aff1, crs := "EPSG:32635" }

/-- Same pixel-array shape as the reference but different transform and CRS. -/
def srcB03 : SourceRaster := { arr := [[5, 6], [7, 8]], transform := aff2, crs := "EPSG:4326" }

/-- Different shape from the reference: must be resampled. -/
def srcB08 : SourceRaster := { arr := [[9]], transform := aff2, crs := "EPSG:32635" }

def filesEx : List (String × SourceRaster) :=
  [("B02", srcB02), ("B03", srcB03), ("B08", srcB08)]

/-- A concrete stand-in for the external warp kernel. -/
def reproEx : ReprojectKernel :=
  fun _ src _ _ _ _ i j => (src.headD []).headD 0 + (i : ℚ) + (j : ℚ)

def dsEx : Dataset :=
  (to_zarr (fun s => s) reproEx "sceneEx" filesEx).getD { bands := [], attrs := [] }

/-- C1 witness: in the concrete ingest — which includes a band whose shape
matches the reference while its transform and CRS differ — every output
band carries exactly the reference Grid. -/
theorem grid_consistency_witness :
    to_zarr (fun s => s) reproEx "sceneEx" filesEx = some dsEx
  ∧ (∀ p ∈ dsEx.bands, p.2.grid = gridOf srcB02)
  ∧ (∃ e, regrid_to_10m (fun _ => gridEx) reproEx dsEx "B02" = Except.error e) :=
  ⟨rfl, grid_consistency_spec.2.1 (fun s => s) reproEx "sceneEx" filesEx srcB02 dsEx rfl rfl,
   grid_consistency_spec.2.2 (fun _ => gridEx) reproEx dsEx "B02"⟩

/-! ### Claim C6: Band Reconciler resampling policy -/

/-- C6: in `to_zarr`, the reference band's array and Grid enter the dataset
as-is; every non-reference band enters with `reconcileBand`, which reuses
the native array exactly when its shape equals the reference shape and
otherwise applies `_resample`; `_resample` calls the warp kernel with
nearest-neighbor resampling and produces an array of the reference shape. -/
theorem reconcile_spec (digest : String → String) (repro : ReprojectKernel)
    (scene : String) (files : List (String × SourceRaster)) (ref : SourceRaster) (ds : Dataset)
    (h1 : files.lookup "B02" = some ref)
    (h2 : to_zarr digest repro scene files = some ds) :
    (("B02", ({ arr := ref.arr, grid := gridOf ref, attrs := [] } : DataArray)) ∈ ds.bands)
  ∧ (∀ p ∈ files, p.1 ≠ "B02" →
      (p.1, ({ arr := reconcileBand repro ref p.2, grid := gridOf ref, attrs := [] } :
        DataArray)) ∈ ds.bands)
  ∧ (∀ src : SourceRaster, (src.width, src.height) = (ref.width, ref.height) →
      reconcileBand repro ref src = src.arr)
  ∧ (∀ src : SourceRaster, (src.width, src.height) ≠ (ref.width, ref.height) →
      reconcileBand repro ref src = _resample repro src (gridOf ref))
  ∧ (∀ (src : SourceRaster) (g : Grid),
      _resample repro src g = mkPixels g.height g.width (fun i j =>
        repro Resampling.nearest src.arr src.transform src.crs g.transform g.crs i j)
    ∧ (_resample repro src g).length = g.height
    ∧ ∀ row ∈ _resample repro src g, row.length = g.width) := by
  simp only [to_zarr, h1] at h2
  obtain rfl := Option.some.inj h2
  refine ⟨?_, ?_, ?_, ?_, ?_⟩
  · simp only [write_zarr_bands]
    exact List.mem_cons_self _ _
  · intro p hp hne
    simp only [write_zarr_bands]
    refine List.mem_cons_of_mem _ ?_
    exact List.mem_map_of_mem _ (List.mem_filter.mpr ⟨hp, by simp [hne]⟩)
  · intro src hsh
    simp [reconcileBand, hsh]
  · intro src hsh
    simp [reconcileBand, hsh]
  · intro src g
    exact ⟨rfl, mkPixels_length _ _ _, mkPixels_row_length _ _ _⟩

/-- C6 witness: at the concrete ingest, the same-shape band B03 enters with
its native array unchanged, while the 1×1 band B08 enters resampled through
the nearest-neighbor kernel onto the 2×2 reference grid. -/
theorem reconcile_witness :
    (("B03", ({ arr := srcB03.arr, grid := gridOf srcB02, attrs := [] } : DataArray))
        ∈ dsEx.bands)
  ∧ (("B08", ({ arr := _resample reproEx srcB08 (gridOf srcB02),
                grid := gridOf srcB02,
                attrs := [] } : DataArray)) ∈ dsEx.bands) := by
  have h := reconcile_spec (fun s => s) reproEx "sceneEx" filesEx srcB02 dsEx rfl rfl
  constructor
  · have hm := h.2.1 ("B03", srcB03) (by simp [filesEx]) (by decide)
    have harr : reconcileBand reproEx srcB02 srcB03 = srcB03.arr :=
      h.2.2.1 srcB03 (by decide)
    rw [harr] at hm
    exact hm
  · have hm := h.2.1 ("B08", srcB08) (by simp [filesEx]) (by decide)
    have harr : reconcileBand reproEx srcB02 srcB08 = _resample reproEx srcB08 (gridOf srcB02) :=
      h.2.2.2.1 srcB08 (by decide)
    rw [harr] at hm
    exact hm

/-! ### Claim C8: Grid Aligner reprojection (code bug: it never runs) -/

def daB04 : DataArray :=
  { arr := [[1, 2], [3, 4]], grid := gridOf srcB02, attrs := [("k", "v1")] }

def daB08 : DataArray :=
  { arr := [[5]], grid := gridOf srcB08, attrs := [("k", "v2")] }

/-- A two-band dataset as opened from a zarr store (per-variable encoding
without a "source" entry), reference band B04 present. -/
def dsAl : Dataset :=
  { bands := [("B04", daB04), ("B08", daB08)], attrs := [] }

def gridReadEx : String → Grid := fun _ => gridEx

/-- C8 (code bug): contrary to the spec and to the function docstring,
`regrid_to_10m` never reprojects anything — at the concrete dataset `dsAl`
with its reference band present it raises `KeyError "source"` reading the
reference variable's nonexistent `encoding["source"]`, and on every input
whatsoever it raises before producing a dataset (`xr.merge` would reject
its dict argument with `TypeError` even past that point). -/
theorem regrid_crash_spec :
    regrid_to_10m gridReadEx reproEx dsAl "B04" =
      Except.error (AlignError.keyError "source")
  ∧ (∀ (gridRead : String → Grid) (repro : ReprojectKernel) (ds : Dataset)
      (refBand : String),
      ∃ e, regrid_to_10m gridRead repro ds refBand = Except.error e) :=
  ⟨rfl, fun gridRead repro ds refBand => regrid_always_error gridRead repro ds refBand⟩

/-! ### Claim C9: attribute-conflict resolution in the Grid Aligner -/

def reproC9 : ReprojectKernel := fun _ _ _ _ _ _ _ _ => 0

def gC9 : Grid :=
  { transform := aff1, width := 1, height := 1, crs := "EPSG:32635" }

def daC9b1 : DataArray := { arr := [[1]], grid := gC9, attrs := [("k", "v1")] }

def daC9b2 : DataArray := { arr := [[2]], grid := gC9, attrs := [("k", "v2")] }

/-- Two bands carrying conflicting values for attribute key "k", as opened
from a zarr store (no per-variable encoding "source" entry). -/
def dsC9 : Dataset :=
  { bands := [("b1", daC9b1), ("b2", daC9b2)], attrs := [] }

/-- C9 counterexample: at the concrete dataset whose bands carry
conflicting values for attribute "k" ("v1" first, "v2" last), the Grid
Aligner does not produce an output dataset carrying the most-recently-
merged band's value — it produces no output dataset at all, raising
`KeyError "source"` before any merge. -/
theorem merge_attrs_counterexample :
    regrid_to_10m gridReadEx reproC9 dsC9 "b1" =
      Except.error (AlignError.keyError "source")
  ∧ (regrid_to_10m gridReadEx reproC9 dsC9 "b1").isOk = false :=
  ⟨rfl, rfl⟩

/-- C9 amended: the Grid Aligner never merges band attributes: on every
dataset opened from a zarr store (reference band present, per-variable
encoding without "source") it fails with `KeyError "source"` before
reprojecting or merging, so no band's attribute value — neither the
first's nor the most-recently-merged's — is carried into any output. -/
theorem merge_attrs_no_output_spec (gridRead : String → Grid)
    (repro : ReprojectKernel) (ds : Dataset) (refBand : String) (refDa : DataArray)
    (h1 : ds.bands.lookup refBand = some refDa)
    (h2 : refDa.encoding.lookup "source" = none) :
    regrid_to_10m gridRead repro ds refBand =
      Except.error (AlignError.keyError "source") := by
  simp only [regrid_to_10m, h1, h2]

/-- C9 witness: the amended claim applied at the concrete conflicting-
attribute dataset. -/
theorem merge_attrs_no_output_witness :
    regrid_to_10m gridReadEx reproC9 dsC9 "b1" =
      Except.error (AlignError.keyError "source") :=
  merge_attrs_no_output_spec gridReadEx reproC9 dsC9 "b1" daC9b1 rfl rfl

/-! ### Claim C4: catalog resolution with fallback -/

theorem insertDesc_ne_nil (it : CatalogItem) (l : List CatalogItem) :
    insertDesc it l ≠ [] := by
  cases l with
  | nil => simp [insertDesc]
  | cons x xs =>
    unfold insertDesc
    split <;> simp

theorem sortDesc_eq_nil_iff (l : List CatalogItem) : sortDesc l = [] ↔ l = [] := by
  cases l with
  | nil => simp [sortDesc]
  | cons x xs => simp [sortDesc, insertDesc_ne_nil]

theorem mem_insertDesc (it y : CatalogItem) (l : List CatalogItem) :
    y ∈ insertDesc it l ↔ y = it ∨ y ∈ l := by
  induction l with
  | nil => simp [insertDesc]
  | cons x xs ih =>
    unfold insertDesc
    split
    · simp [List.mem_cons]
    · simp only [List.mem_cons, ih]
      tauto

/-- Sorted by non-increasing timestamp. -/
def SortedDesc (l : List CatalogItem) : Prop :=
  l.Pairwise fun x y => y.ts ≤ x.ts

theorem sortedDesc_insertDesc (it : CatalogItem) (l : List CatalogItem)
    (h : SortedDesc l) : SortedDesc (insertDesc it l) := by
  induction l with
  | nil => simp [insertDesc, SortedDesc]
  | cons x xs ih =>
    rw [SortedDesc, List.pairwise_cons] at h
    unfold insertDesc
    split
    next hlt =>
      rw [SortedDesc, List.pairwise_cons]
      refine ⟨?_, List.pairwise_cons.mpr h⟩
      intro y hy
      rcases List.mem_cons.mp hy with rfl | hy
      · exact le_of_lt hlt
      · exact le_trans (h.1 y hy) (le_of_lt hlt)
    next hge =>
      rw [SortedDesc, List.pairwise_cons]
      refine ⟨?_, ih h.2⟩
      intro y hy
      rcases (mem_insertDesc it y xs).mp hy with rfl | hy
      · exact Nat.le_of_not_lt hge
      · exact h.1 y hy

theorem sortedDesc_sortDesc (l : List CatalogItem) : SortedDesc (sortDesc l) := by
  induction l with
  | nil => simp [sortDesc, SortedDesc]
  | cons x xs ih => exact sortedDesc_insertDesc x _ ih

theorem mem_sortDesc (y : CatalogItem) (l : List CatalogItem) :
    y ∈ sortDesc l ↔ y ∈ l := by
  induction l with
  | nil => simp [sortDesc]
  | cons x xs ih => simp [sortDesc, mem_insertDesc, ih]

/-- The head of the descending sort is a maximal-timestamp element. -/
theorem sortDesc_head_max (l : List CatalogItem) (x : CatalogItem)
    (rest : List CatalogItem) (h : sortDesc l = x :: rest) :
    x ∈ l ∧ ∀ y ∈ l, y.ts ≤ x.ts := by
  have hs := sortedDesc_sortDesc l
  rw [h, SortedDesc, List.pairwise_cons] at hs
  constructor
  · exact (mem_sortDesc x l).mp (by rw [h]; exact List.mem_cons_self x rest)
  · intro y hy
    have hmem : y ∈ x :: rest := by
      rw [← h]
      exact (mem_sortDesc y l).mpr hy
    rcases List.mem_cons.mp hmem with rfl | hy2
    · exact le_refl _
    · exact hs.1 y hy2

theorem searchFallback_eq_nil_iff (catalog : List CatalogItem) (dayEnd : Nat) :
    searchFallback catalog dayEnd = [] ↔ ∀ it ∈ catalog, ¬ it.ts ≤ dayEnd := by
  unfold searchFallback
  rw [List.take_eq_nil_iff]
  simp [sortDesc_eq_nil_iff, List.filter_eq_nil_iff]

/-- C4: the resolver fails with `NotFound` exactly when both the exact-date
window search and the fallback search are empty — equivalently, when no
catalog item has timestamp at most the end of the target date; when the
exact search is nonempty its first item is returned (fallback not
consulted); when the exact search is empty but an eligible earlier item
exists, the returned item is a most-recent one among all items with
timestamp at most the end of the target date. -/
theorem resolver_fallback_spec (catalog : List CatalogItem) (tile date : String)
    (dayStart dayEnd : Nat) :
    (resolveScene catalog tile date dayStart dayEnd =
        Except.error (IngestError.notFound tile date) ↔
      ∀ it ∈ catalog, ¬ it.ts ≤ dayEnd)
  ∧ (∀ x l, searchExact catalog dayStart dayEnd = x :: l →
      resolveScene catalog tile date dayStart dayEnd = Except.ok x)
  ∧ (searchExact catalog dayStart dayEnd = [] →
      ∀ it, resolveScene catalog tile date dayStart dayEnd = Except.ok it →
        it ∈ catalog ∧ it.ts ≤ dayEnd ∧
          ∀ y ∈ catalog, y.ts ≤ dayEnd → y.ts ≤ it.ts) := by
  refine ⟨?_, ?_, ?_⟩
  · constructor
    · intro h
      cases hE : searchExact catalog dayStart dayEnd with
      | cons x xs => simp [resolveScene, hE] at h
      | nil =>
        cases hF : searchFallback catalog dayEnd with
        | cons x xs => simp [resolveScene, hE, hF] at h
        | nil => exact (searchFallback_eq_nil_iff _ _).mp hF
    · intro h
      have hF : searchFallback catalog dayEnd = [] :=
        (searchFallback_eq_nil_iff _ _).mpr h
      have hE : searchExact catalog dayStart dayEnd = [] := by
        unfold searchExact
        rw [List.take_eq_nil_iff]
        right
        rw [List.filter_eq_nil_iff]
        intro it hit
        simp only [decide_eq_true_eq]
        intro hc
        exact h it hit hc.2
      simp [resolveScene, hE, hF]
  · intro x l hE
    simp [resolveScene, hE]
  · intro hE it hok
    simp only [resolveScene, hE] at hok
    cases hF : searchFallback catalog dayEnd with
    | nil => simp [hF] at hok
    | cons x xs =>
      rw [hF] at hok
      obtain rfl : x = it := by
        simpa using hok
      unfold searchFallback at hF
      cases hS : sortDesc (catalog.filter fun it => decide (it.ts ≤ dayEnd)) with
      | nil => simp [hS] at hF
      | cons a as =>
        rw [hS] at hF
        have hax : a = x ∧ ([] : List CatalogItem) = xs := by
          simpa using hF
        obtain ⟨h9, -⟩ := hax
        subst h9
        have hmax := sortDesc_head_max _ _ _ hS
        have hin := List.mem_filter.mp hmax.1
        refine ⟨hin.1, by simpa using hin.2, ?_⟩
        intro y hy hyle
        exact hmax.2 y (List.mem_filter.mpr ⟨hy, by simpa using hyle⟩)

def itemEarly : CatalogItem := { ts := 50, assets := [] }

def itemLater : CatalogItem := { ts := 80, assets := [] }

def catalogEx : List CatalogItem := [itemEarly, itemLater]

/-- C4 witness: with a window `[100, 150]` matching nothing, the resolver
returns the most recent earlier item (ts = 80), not an error; and on an
empty catalog it fails with `NotFound`. -/
theorem resolver_fallback_witness :
    resolveScene catalogEx "T35NND" "2024-02-15" 100 150 = Except.ok itemLater
  ∧ itemLater ∈ catalogEx ∧ itemLater.ts ≤ 150
  ∧ (∀ y ∈ catalogEx, y.ts ≤ 150 → y.ts ≤ itemLater.ts)
  ∧ resolveScene [] "T35NND" "2024-02-15" 100 150 =
      Except.error (IngestError.notFound "T35NND" "2024-02-15") := by
  have hok : resolveScene catalogEx "T35NND" "2024-02-15" 100 150 = Except.ok itemLater := rfl
  have h := (resolver_fallback_spec catalogEx "T35NND" "2024-02-15" 100 150).2.2
    (by decide) itemLater hok
  exact ⟨hok, h.1, h.2.1, h.2.2,
    (resolver_fallback_spec [] "T35NND" "2024-02-15" 100 150).1.mpr (by decide)⟩

/-! ### Claim C5: band asset alias resolution -/

theorem resolveAsset_eq_none_iff (item : CatalogItem) (aliases : List String) :
    resolveAsset item aliases = none ↔ ∀ a ∈ aliases, item.assets.lookup a = none := by
  induction aliases with
  | nil => simp [resolveAsset]
  | cons key rest ih =>
    unfold resolveAsset
    cases hk : item.assets.lookup key with
    | some v =>
      simp only [hk]
      constructor
      · intro h
        exact absurd h (by simp)
      · intro h
        have hkk := h key (List.mem_cons_self key rest)
        rw [hk] at hkk
        exact absurd hkk (by simp)
    | none =>
      simp only [hk]
      rw [ih]
      constructor
      · intro h a ha
        rcases List.mem_cons.mp ha with rfl | ha2
        · exact hk
        · exact h a ha2
      · intro h a ha
        exact h a (List.mem_cons_of_mem key ha)

theorem resolveAsset_first (item : CatalogItem) (pre post : List String)
    (key asset : String)
    (hpre : ∀ a ∈ pre, item.assets.lookup a = none)
    (hkey : item.assets.lookup key = some asset) :
    resolveAsset item (pre ++ key :: post) = some asset := by
  induction pre with
  | nil => simp [resolveAsset, hkey]
  | cons a rest ih =>
    have ha := hpre a (List.mem_cons_self a rest)
    rw [List.cons_append]
    unfold resolveAsset
    rw [ha]
    exact ih fun b hb => hpre b (List.mem_cons_of_mem a hb)

/-- C5: for a logical band and a catalog item, the alias list is scanned in
order and the asset of the first alias present in the item's asset map is
returned; the mapper fails with `MissingAsset` — reporting the logical band
name and the item's available asset keys — exactly when no alias is
present. -/
theorem band_asset_spec (item : CatalogItem) (logical : String) (aliases : List String) :
    (bandAsset item logical aliases =
        Except.error (IngestError.missingAsset logical (item.assets.map Prod.fst)) ↔
      ∀ a ∈ aliases, item.assets.lookup a = none)
  ∧ (∀ pre key post asset, aliases = pre ++ key :: post →
      (∀ a ∈ pre, item.assets.lookup a = none) →
      item.assets.lookup key = some asset →
      bandAsset item logical aliases = Except.ok asset) := by
  constructor
  · rw [← resolveAsset_eq_none_iff]
    unfold bandAsset
    cases hr : resolveAsset item aliases with
    | some v => simp [hr]
    | none => simp [hr]
  · intro pre key post asset hal hpre hkey
    subst hal
    unfold bandAsset
    rw [resolveAsset_first item pre post key asset hpre hkey]

def itemNir : CatalogItem := { ts := 100, assets := [("nir08", "s3-nir08-cog")] }

def itemBare : CatalogItem := { ts := 100, assets := [("visual", "s3-visual-cog")] }

def aliasesB08 : List String := (BANDS.lookup "B08").getD []

/-- C5 witness: with the configured B08 alias list, an item exposing only
"nir08" resolves to that asset, and an item with none of the aliases fails
with `MissingAsset` naming "B08" and the item's available keys. -/
theorem band_asset_witness :
    bandAsset itemNir "B08" aliasesB08 = Except.ok "s3-nir08-cog"
  ∧ bandAsset itemBare "B08" aliasesB08 =
      Except.error (IngestError.missingAsset "B08" ["visual"]) := by
  constructor
  · exact (band_asset_spec itemNir "B08" aliasesB08).2 ["B08", "B08_JP2"] "nir08"
      ["nir08-jp2", "nir", "nir-jp2"] "s3-nir08-cog" (by decide) (by decide) (by decide)
  · exact (band_asset_spec itemBare "B08" aliasesB08).1.mpr (by decide)

end Satpipe
